import Mathlib

/-!
Verification of the AMA Global dual-mode data-access layer.

This file gives a shallow embedding, in Lean, of the parts of the
repository that the checked properties speak about:

* the backend availability gate and credential check
  (src/src/lib/supabase.ts);
* the resilient operation wrapper `safeSupabaseOperation`
  (exported by lib/supabase.ts and called from src/src/hooks/useAuth.ts
  and the hooks in src/unnamed/part_013);
* the local store adapter `offlineDB` (src/unnamed/part_012);
* the question repository hook `useQuestions`
  (src/src/hooks/useQuestions.ts): loadQuestions, createQuestion,
  voteOnQuestion;
* the authentication hook `useAuth` (src/src/hooks/useAuth.ts,
  second revision in that file): signIn offline path, signOut;
* the SQL trigger functions `update_answer_count` and
  `update_accepted_answer_count` (src/unnamed/part_001).

TypeScript objects become Lean structures; `null`/`undefined` become
`Option`; JavaScript numbers used as counters become `Int`; promises
that the code awaits become plain values, with the outcome of a remote
call passed in as an explicit `Except` argument; localStorage keys
become fields of an explicit state record.  Nondeterministic inputs of
the source (generated ids, timestamps, the offline-mode flag, the
remote backend) are threaded as parameters.  Definitions come first,
then the theorems about them.
-/

namespace AMA

/-- A stored user / profile record (src/src/types/index.ts `User`).
Only the fields the verified operations read are carried. -/
structure User where
  id : String
  email : String
  username : String
  deriving Repr, DecidableEq

/-- Vote direction (src/src/types/index.ts `Vote.vote_type`). -/
inductive VoteType where
  | up
  | down
  deriving Repr, DecidableEq

/-- Vote target kind (src/src/types/index.ts `Vote.target_type`). -/
inductive TargetType where
  | question
  | answer
  | comment
  deriving Repr, DecidableEq

/-- A stored vote record (src/src/types/index.ts `Vote`). -/
structure Vote where
  id : String
  user_id : String
  target_id : String
  target_type : TargetType
  vote_type : VoteType
  created_at : String
  deriving Repr, DecidableEq

/-- A stored question record (src/src/types/index.ts `Question`,
without the client-side `author` join field, which is modelled
separately by `QuestionWithAuthor`). -/
structure Question where
  id : String
  title : String
  content : String
  author_id : Option String
  votes : Int
  answer_count : Int
  tags : List String
  is_answered : Bool
  is_featured : Bool
  asker_name : Option String
  is_anonymous : Bool
  created_at : String
  updated_at : String
  deriving Repr, DecidableEq

/-- A question joined with its author, as produced by the load paths
(`{ ...question, author }` spreads in useQuestions.ts). -/
structure QuestionWithAuthor where
  question : Question
  author : Option User
  deriving Repr, DecidableEq

/-- The localStorage-backed offline store (src/unnamed/part_012
`OfflineDB`): the keys offline_users, offline_questions,
offline_votes.  The answers key is not read by any verified
operation and is omitted. -/
structure OfflineDB where
  users : List User
  questions : List Question
  votes : List Vote
  deriving Repr, DecidableEq

/-! ### Backend availability gate (src/src/lib/supabase.ts) -/

/-- JavaScript `String.prototype.startsWith`, modelled on the character
sequence of the string. -/
def jsStartsWith (s pre : String) : Bool :=
  pre.data.isPrefixOf s.data

/-- Credential validity check, src/src/lib/supabase.ts lines 92-96:
`supabaseUrl && supabaseAnonKey && supabaseUrl !== 'your_supabase_url_here'
&& supabaseAnonKey !== 'your_supabase_anon_key_here' &&
supabaseUrl.startsWith('https://')`.  An absent environment variable is
the empty string (lines 88-89 default to `''`), and the empty string is
the only falsy string in JavaScript. -/
def hasValidCredentials (supabaseUrl supabaseAnonKey : String) : Bool :=
  supabaseUrl ≠ "" && supabaseAnonKey ≠ "" &&
  supabaseUrl ≠ "your_supabase_url_here" &&
  supabaseAnonKey ≠ "your_supabase_anon_key_here" &&
  jsStartsWith supabaseUrl "https://"

/-- Modelled from the spec: the current revision of lib/supabase.ts —
the one exporting `safeSupabaseOperation` and `getAuthRedirectUrl`,
which useAuth.ts imports — is not among the snapshots under src/, and
it is that revision which consults the stored offline-mode preference.
Spec 4.1: "Inputs: a user-set local preference flag (if present, wins),
else an explicit offline environment flag, else whether the remote
client has syntactically valid, non-placeholder credentials."  The
stored preference is the `ama_offline_mode` localStorage value
(`none` when the key is absent); the environment flag is compared
against the string "true" exactly as in every available snapshot of
`isOfflineMode` (`import.meta.env.VITE_OFFLINE_MODE === 'true'`).
The credential check is `hasValidCredentials`, embedded from source. -/
def isOfflineMode (storedPref : Option String) (envOfflineMode : String)
    (supabaseUrl supabaseAnonKey : String) : Bool :=
  match storedPref with
  | some pref => pref == "true"
  | none =>
      envOfflineMode == "true" || !(hasValidCredentials supabaseUrl supabaseAnonKey)

/-! ### Resilient operation wrapper -/

/-- Modelled from the spec: the definition of `safeSupabaseOperation`
lives in the current revision of lib/supabase.ts, which is not among
the snapshots under src/; only its call sites are (useAuth.ts line 832
among others).  Spec 4.2: "Invokes `op`; on any rejection, logs and
returns `fallback` rather than propagating. ... Must not retry — a
single attempt only."  The operation is modelled as a stream of
per-attempt outcomes; the wrapper consults attempt 0 only, so that the
absence of a retry is expressible.  The wrapper is a total function:
it never throws. -/
def safeSupabaseOperation {T : Type} (op : Nat → Except String T) (fallback : T) : T :=
  match op 0 with
  | Except.ok v => v
  | Except.error _ => fallback

/-! ### Question repository hook (src/src/hooks/useQuestions.ts) -/

/-- JavaScript `x || null` on an optional string: `undefined`, `null`
and the empty string are falsy and give `null`. -/
def jsStringOrNull (s : Option String) : Option String :=
  match s with
  | some v => if v = "" then none else some v
  | none => none

/-- The `questionData` object built by `createQuestion`
(src/src/hooks/useQuestions.ts lines 109-120, identical in
src/unnamed/part_013 lines 348-359):
`author_id: auth.user?.id || null`,
`asker_name: !auth.user && !isAnonymous ? askerName : null`,
`is_anonymous: isAnonymous`, zero counters, cleared flags.  The id and
timestamps are filled in by whichever store performs the insert. -/
def createQuestionData (authUser : Option User) (title content : String)
    (tags : List String) (askerName : Option String) (isAnonymous : Bool) :
    Question :=
  { id := ""
    title := title
    content := content
    author_id := jsStringOrNull (authUser.map User.id)
    votes := 0
    answer_count := 0
    tags := tags
    is_answered := false
    is_featured := false
    asker_name := if authUser.isNone && !isAnonymous then askerName else none
    is_anonymous := isAnonymous
    created_at := ""
    updated_at := "" }

/-- The offline store insert `offlineDB.saveQuestion`
(src/unnamed/part_012 lines 51-62): appends the record with a
synthesized id and timestamps, which are nondeterministic in the
source (`Date.now()`, `Math.random()`) and therefore passed in. -/
def OfflineDB.saveQuestion (db : OfflineDB) (newId ts : String) (q : Question) :
    OfflineDB × Question :=
  let newQuestion : Question := { q with id := newId, created_at := ts, updated_at := ts }
  ({ db with questions := db.questions ++ [newQuestion] }, newQuestion)

/-- A concrete authenticated user used in counterexamples and witnesses. -/
def aliceUser : User :=
  { id := "user-1", email := "alice@example.com", username := "alice" }

/-! ### loadQuestions (src/src/hooks/useQuestions.ts lines 24-97) -/

/-- The in-memory state the hook keeps: `questions`, `loading`,
`error` (part_013 lines 249-251), together with the warning toasts
raised through `useToast` (line 253). -/
structure LoadState where
  questions : List QuestionWithAuthor
  loading : Bool
  error : Option String
  toasts : List String
  deriving Repr, DecidableEq

/-- The offline join of `loadQuestions` (part_013 lines 267-274,
repeated in the fallback at lines 318-324): each stored question is
paired with `users.find(user => user.id === question.author_id)`; a
null `author_id` matches no user. -/
def offlineJoin (db : OfflineDB) : List QuestionWithAuthor :=
  db.questions.map (fun question =>
    { question := question
      author := db.users.find? (fun user => some user.id == question.author_id) })

/-- The online join of `loadQuestions` (part_013 lines 303-306): the
remote rows are paired with the fetched profiles;
`author: question.author_id ? profilesData.find(...) : null`, where a
null or empty author id is falsy. -/
def onlineJoin (questionsData : List Question) (profilesData : List User) :
    List QuestionWithAuthor :=
  questionsData.map (fun question =>
    { question := question
      author :=
        match question.author_id with
        | some aid =>
            if aid = "" then none
            else profilesData.find? (fun profile => profile.id == aid)
        | none => none })

/-- JavaScript `Array.isArray` applied to a value that is statically an
array, as in `Array.isArray(result)` at part_013 line 309: `result` is
either the remote block's return value `questionsData?.map(...) || []`
(an array) or the fallback `[]` (an array), so the test is true for
every value this model can produce. -/
def jsIsArray {α : Type} (l : List α) : Bool :=
  match l with
  | _ => true

/-- `loadQuestions` in its current revision (src/unnamed/part_013
lines 260-336, the revision importing `safeSupabaseOperation` and the
nullable client `supabase!`), as a function of the mode gate, the
per-attempt outcomes of the remote block (the two queries of lines
281-300, which either produce the question rows and the fetched author
profiles or throw), and the offline store.  The offline branch joins
the local store.  The online branch runs the remote block through
`safeSupabaseOperation` with the fallback `[]` (lines 279-307) and
tests `Array.isArray(result)` (line 309): an array — which the result
always is, the fallback included — is installed as the question list
with no error and no toast; the non-array branch (lines 312-327),
which would raise the "Connection Issues" warning toast and fall back
to the offline join, is modelled faithfully but is unreachable.
`loading` ends false through the `finally` of line 334; the `catch` of
lines 329-332 is not reachable in this total model. -/
def loadQuestions (offline : Bool)
    (remote : Nat → Except String (List Question × List User)) (db : OfflineDB) :
    LoadState :=
  if offline then
    { questions := offlineJoin db, loading := false, error := none, toasts := [] }
  else
    let result := safeSupabaseOperation
      (fun n => (remote n).map (fun rd => onlineJoin rd.1 rd.2)) []
    if jsIsArray result then
      { questions := result, loading := false, error := none, toasts := [] }
    else
      { questions := offlineJoin db
        loading := false
        error := none
        toasts := ["Connection Issues"] }

/-! ### voteOnQuestion, offline path
(src/src/hooks/useQuestions.ts lines 175-215; the store append is
src/unnamed/part_012 lines 87-97) -/

/-- A vote record as assembled by `offlineDB.saveVote`. -/
def mkVote (newId userId targetId : String) (targetType : TargetType)
    (voteType : VoteType) (ts : String) : Vote :=
  { id := newId
    user_id := userId
    target_id := targetId
    target_type := targetType
    vote_type := voteType
    created_at := ts }

/-- The offline store insert `offlineDB.saveVote`
(src/unnamed/part_012 lines 87-97): appends the record with a
synthesized id and timestamp, passed in as parameters. -/
def OfflineDB.saveVote (db : OfflineDB) (newId ts : String)
    (user_id target_id : String) (target_type : TargetType) (vote_type : VoteType) :
    OfflineDB × Vote :=
  let newVote : Vote := mkVote newId user_id target_id target_type vote_type ts
  ({ db with votes := db.votes ++ [newVote] }, newVote)

/-- The duplicate-vote predicate of `voteOnQuestion` (lines 184-188):
`vote.user_id === auth.user.id && vote.target_id === questionId &&
vote.target_type === 'question'`. -/
def voteMatches (userId questionId : String) (vote : Vote) : Bool :=
  vote.user_id == userId && vote.target_id == questionId &&
  vote.target_type == TargetType.question

/-- The unconditional part of the offline vote (lines 195-214): save a
new vote record, then rewrite the cached question list, bumping the
matching question's counter by `voteType === 'up' ? 1 : -1`. -/
def applyVoteOffline (db : OfflineDB) (userId questionId : String)
    (voteType : VoteType) (newId ts : String) : OfflineDB :=
  let saved := db.saveVote newId ts userId questionId TargetType.question voteType
  let increment : Int := if voteType == VoteType.up then 1 else -1
  { saved.1 with
    questions := saved.1.questions.map (fun q =>
      if q.id == questionId then { q with votes := q.votes + increment } else q) }

/-- The offline branch of `voteOnQuestion` (lines 181-215): look for an
existing vote by this user on this question (`votes.find`, which
returns the first match); if one exists and has the same direction,
return without changing anything; otherwise record the vote and adjust
the counter. -/
def voteOnQuestionOffline (db : OfflineDB) (userId questionId : String)
    (voteType : VoteType) (newId ts : String) : OfflineDB :=
  match db.votes.find? (voteMatches userId questionId) with
  | some existingVote =>
      if existingVote.vote_type == voteType then db
      else applyVoteOffline db userId questionId voteType newId ts
  | none => applyVoteOffline db userId questionId voteType newId ts

/-- The guard of `voteOnQuestion` (line 176): a missing authenticated
user raises "Must be logged in to vote"; otherwise the offline branch
runs under that user's id. -/
def voteOnQuestion (authUser : Option User) (db : OfflineDB) (questionId : String)
    (voteType : VoteType) (newId ts : String) : Except String OfflineDB :=
  match authUser with
  | none => Except.error "Must be logged in to vote"
  | some u => Except.ok (voteOnQuestionOffline db u.id questionId voteType newId ts)

/-- A concrete stored question used in witnesses. -/
def demoQuestion : Question :=
  { id := "q1"
    title := "Will AI replace radiologists?"
    content := "Curious about the long term."
    author_id := some "user-1"
    votes := 3
    answer_count := 0
    tags := ["ai"]
    is_answered := false
    is_featured := false
    asker_name := none
    is_anonymous := false
    created_at := "2025-06-28"
    updated_at := "2025-06-28" }

/-- A concrete offline store used in witnesses: one user, one question
with three votes, no vote records. -/
def demoDB : OfflineDB :=
  { users := [aliceUser]
    questions := [demoQuestion]
    votes := [] }

/-! ### Authentication hook (src/src/hooks/useAuth.ts, second revision,
lines 245-876) -/

/-- The in-memory auth state (src/src/types/index.ts `AuthState`). -/
structure AuthState where
  user : Option User
  loading : Bool
  error : Option String
  deriving Repr, DecidableEq

/-- The auth hook's state together with the localStorage keys it
touches: `offline_current_user` and `ama_cached_user`. -/
structure AuthEnv where
  authState : AuthState
  offlineCurrentUser : Option User
  amaCachedUser : Option User
  deriving Repr, DecidableEq

/-- The cache-sync effect of useAuth.ts lines 291-297: whenever
`auth.user` changes, `ama_cached_user` is written to mirror it
(set when a user is present, removed when not). -/
def cacheUserEffect (s : AuthEnv) : AuthEnv :=
  match s.authState.user with
  | some u => { s with amaCachedUser := some u }
  | none => { s with amaCachedUser := none }

/-- `signOut` (useAuth.ts lines 824-861), composed with the
cache-sync effect that runs once the state update lands.  The remote
sign-out call is passed in as a stream of attempt outcomes and run
through `safeSupabaseOperation` with fallback `true` (line 836,
"Always succeed for sign out").  The body of the `try` is total in
this model, so the `catch` of lines 850-860 — which also clears the
cached user and resolves with no error — is not reachable. -/
def signOut (offline : Bool) (remoteSignOut : Nat → Except String Unit)
    (s : AuthEnv) : AuthEnv × Option String :=
  let s1 : AuthEnv := { s with authState := { s.authState with error := none } }
  let s2 : AuthEnv :=
    if offline then { s1 with offlineCurrentUser := none }
    else
      let result := safeSupabaseOperation
        (fun n => (remoteSignOut n).map (fun _ => true)) true
      if result then s1 else { s1 with offlineCurrentUser := none }
  let s3 : AuthEnv :=
    { s2 with authState := { user := none, loading := false, error := none } }
  (cacheUserEffect s3, none)

/-- The offline branch of `signIn` (useAuth.ts lines 428-450): clear
the error, scan the stored users for the first one whose email
matches (`users.find(u => u.email === email)` — the password is never
consulted); on a hit, cache that user under `offline_current_user` and
install it as the authenticated user; otherwise set and return the
"Invalid credentials" error. -/
def signInOffline (db : OfflineDB) (email password : String) (s : AuthEnv) :
    AuthEnv × Option String :=
  let s1 : AuthEnv := { s with authState := { s.authState with error := none } }
  match db.users.find? (fun u => u.email == email) with
  | some user =>
      ({ s1 with
          offlineCurrentUser := some user
          authState := { user := some user, loading := false, error := none } },
        none)
  | none =>
      ({ s1 with
          authState := { s1.authState with
            loading := false
            error := some "Invalid credentials" } },
        some "Invalid credentials")

/-! ### Trigger-maintained counters (src/unnamed/part_001) -/

/-- A row of the `questions` table, restricted to the columns the
answer triggers read or write. -/
structure QuestionRow where
  id : String
  answer_count : Int
  is_answered : Bool
  updated_at : Nat
  deriving Repr, DecidableEq

/-- A row of the `profiles` table, restricted to the counter columns
the answer triggers write. -/
structure ProfileRow where
  id : String
  answers_count : Int
  accepted_answers_count : Int
  deriving Repr, DecidableEq

/-- A row of the `answers` table, restricted to the columns the
triggers read.  `author_id` is nullable in the schema
(src/unnamed/part_001 line 190). -/
structure AnswerRow where
  id : String
  question_id : String
  author_id : Option String
  is_accepted : Bool
  deriving Repr, DecidableEq

/-- The three tables the answer triggers touch. -/
structure SqlDB where
  questions : List QuestionRow
  profiles : List ProfileRow
  answers : List AnswerRow
  deriving Repr, DecidableEq

/-- The INSERT branch of `update_answer_count` (src/unnamed/part_001
lines 499-510): bump the parent question's `answer_count` and stamp
`updated_at`, and bump the author's `answers_count`.  A SQL `UPDATE ...
WHERE id = NEW.author_id` matches no row when `author_id` is NULL. -/
def update_answer_count_insert (new : AnswerRow) (now : Nat) (db : SqlDB) : SqlDB :=
  { db with
    questions := db.questions.map (fun q =>
      if q.id == new.question_id then
        { q with answer_count := q.answer_count + 1, updated_at := now }
      else q)
    profiles := db.profiles.map (fun p =>
      if some p.id == new.author_id then
        { p with answers_count := p.answers_count + 1 }
      else p) }

/-- The DELETE branch of `update_answer_count` (src/unnamed/part_001
lines 511-522): the two counters come back down by one. -/
def update_answer_count_delete (old : AnswerRow) (now : Nat) (db : SqlDB) : SqlDB :=
  { db with
    questions := db.questions.map (fun q =>
      if q.id == old.question_id then
        { q with answer_count := q.answer_count - 1, updated_at := now }
      else q)
    profiles := db.profiles.map (fun p =>
      if some p.id == old.author_id then
        { p with answers_count := p.answers_count - 1 }
      else p) }

/-- `update_accepted_answer_count` (src/unnamed/part_001 lines
528-550), fired AFTER UPDATE on answers: an acceptance
(false to true) bumps the author's `accepted_answers_count` and marks
the parent question answered; an unacceptance (true to false) only
drops the author's counter — the question row is untouched. -/
def update_accepted_answer_count (old new : AnswerRow) (db : SqlDB) : SqlDB :=
  if new.is_accepted == true && old.is_accepted == false then
    { db with
      profiles := db.profiles.map (fun p =>
        if some p.id == new.author_id then
          { p with accepted_answers_count := p.accepted_answers_count + 1 }
        else p)
      questions := db.questions.map (fun q =>
        if q.id == new.question_id then { q with is_answered := true } else q) }
  else if new.is_accepted == false && old.is_accepted == true then
    { db with
      profiles := db.profiles.map (fun p =>
        if some p.id == new.author_id then
          { p with accepted_answers_count := p.accepted_answers_count - 1 }
        else p) }
  else db

/-- An answer insert together with its AFTER INSERT trigger
(trigger_update_answer_count, src/unnamed/part_001 lines 599-602):
one transition covers the row append and both counter updates. -/
def insertAnswer (new : AnswerRow) (now : Nat) (db : SqlDB) : SqlDB :=
  update_answer_count_insert new now { db with answers := db.answers ++ [new] }

/-- An answer delete together with its AFTER DELETE trigger. -/
def deleteAnswer (old : AnswerRow) (now : Nat) (db : SqlDB) : SqlDB :=
  update_answer_count_delete old now { db with answers := db.answers.erase old }

/-- An answer update together with its AFTER UPDATE trigger
(trigger_update_accepted_answer_count, src/unnamed/part_001 lines
604-607). -/
def updateAnswer (old new : AnswerRow) (db : SqlDB) : SqlDB :=
  update_accepted_answer_count old new
    { db with answers := db.answers.map (fun a => if a.id == old.id then new else a) }

/-- A concrete question row used in witnesses. -/
def demoQuestionRow : QuestionRow :=
  { id := "q1", answer_count := 0, is_answered := true, updated_at := 0 }

/-- A second concrete question row used in witnesses. -/
def demoQuestionRow2 : QuestionRow :=
  { id := "q2", answer_count := 5, is_answered := false, updated_at := 0 }

/-- A concrete profile row used in witnesses. -/
def demoProfileRow : ProfileRow :=
  { id := "user-1", answers_count := 2, accepted_answers_count := 1 }

/-- A second concrete profile row used in witnesses. -/
def demoProfileRow2 : ProfileRow :=
  { id := "user-2", answers_count := 0, accepted_answers_count := 0 }

/-- A concrete answer row used in witnesses. -/
def demoAnswerRow : AnswerRow :=
  { id := "a1", question_id := "q1", author_id := some "user-1", is_accepted := true }

/-- A concrete SQL state used in witnesses. -/
def demoSqlDB : SqlDB :=
  { questions := [demoQuestionRow, demoQuestionRow2]
    profiles := [demoProfileRow, demoProfileRow2]
    answers := [demoAnswerRow] }

/-- A second concrete answer row used in witnesses: an unaccepted
answer to the second question by the second profile. -/
def demoAnswerRow2 : AnswerRow :=
  { id := "a2", question_id := "q2", author_id := some "user-2", is_accepted := false }

/-- A concrete auth environment used in witnesses: a signed-in user
cached under both localStorage keys. -/
def demoAuthEnv : AuthEnv :=
  { authState := { user := some aliceUser, loading := false, error := none }
    offlineCurrentUser := some aliceUser
    amaCachedUser := some aliceUser }

/-!
## Theorems
-/

/-- Claim C1: `isOfflineMode()` returns true exactly when a mode is
forced offline per the precedence: a stored preference, if present,
wins (in particular a stored "true" beats valid credentials); otherwise
the explicit offline environment flag decides; otherwise the result is
true iff the remote client lacks syntactically valid, non-placeholder
credentials. -/
theorem isOfflineMode_precedence (pref env supabaseUrl supabaseAnonKey : String) :
    (isOfflineMode (some "true") env supabaseUrl supabaseAnonKey = true) ∧
    (pref ≠ "true" → isOfflineMode (some pref) env supabaseUrl supabaseAnonKey = false) ∧
    (isOfflineMode none "true" supabaseUrl supabaseAnonKey = true) ∧
    (env ≠ "true" →
      isOfflineMode none env supabaseUrl supabaseAnonKey
        = !(hasValidCredentials supabaseUrl supabaseAnonKey)) ∧
    (hasValidCredentials supabaseUrl supabaseAnonKey = true →
      isOfflineMode (some "true") env supabaseUrl supabaseAnonKey = true) := by
  refine ⟨rfl, ?_, ?_, ?_, fun _ => rfl⟩
  · intro h
    simp [isOfflineMode, h]
  · simp [isOfflineMode]
  · intro h
    simp [isOfflineMode, h]

/-- Witness for C1: with valid credentials and the environment flag
unset, a stored preference of "true" still forces offline mode, a
stored preference of "false" forces online mode, and with no stored
preference the result follows the credentials. -/
theorem isOfflineMode_precedence_witness :
    isOfflineMode (some "true") "" "https://example.supabase.co" "anon-key" = true ∧
    isOfflineMode (some "false") "" "" "" = false ∧
    isOfflineMode none "" "https://example.supabase.co" "anon-key" = false := by
  refine ⟨(isOfflineMode_precedence "false" "" "https://example.supabase.co" "anon-key").1,
    (isOfflineMode_precedence "false" "" "" "").2.1 (by decide), ?_⟩
  have h := (isOfflineMode_precedence "false" "" "https://example.supabase.co"
    "anon-key").2.2.2.1 (by decide)
  rw [h]
  decide

/-- Claim C4: `safeOperation(op, v)` never throws — it is a total
function into `T`; if `op` rejects, the call resolves with exactly the
fallback; and `op` is invoked at most once per call: the result depends
only on the outcome of attempt 0, so no retry is observable. -/
theorem safeSupabaseOperation_single_attempt {T : Type}
    (op op' : Nat → Except String T) (fallback : T) :
    (∀ e, op 0 = Except.error e → safeSupabaseOperation op fallback = fallback) ∧
    (∀ v, op 0 = Except.ok v → safeSupabaseOperation op fallback = v) ∧
    (op 0 = op' 0 →
      safeSupabaseOperation op fallback = safeSupabaseOperation op' fallback) := by
  refine ⟨?_, ?_, ?_⟩
  · intro e he
    simp [safeSupabaseOperation, he]
  · intro v hv
    simp [safeSupabaseOperation, hv]
  · intro h
    simp [safeSupabaseOperation, h]

/-- Witness for C4: a rejecting operation yields exactly the fallback,
and an operation that only differs from it on later attempts yields
the same result. -/
theorem safeSupabaseOperation_single_attempt_witness :
    safeSupabaseOperation (fun _ => (Except.error "network down" : Except String Nat)) 7 = 7 ∧
    safeSupabaseOperation (fun n => if n = 0 then (Except.error "network down" : Except String Nat)
        else Except.ok 99) 7
      = safeSupabaseOperation (fun _ => (Except.error "network down" : Except String Nat)) 7 := by
  constructor
  · exact (safeSupabaseOperation_single_attempt
      (fun _ => (Except.error "network down" : Except String Nat))
      (fun _ => Except.error "network down") 7).1 "network down" rfl
  · exact (safeSupabaseOperation_single_attempt
      (fun n => if n = 0 then (Except.error "network down" : Except String Nat)
        else Except.ok 99)
      (fun _ => Except.error "network down") 7).2.2 rfl

/-- Counterexample to claim C3 as stated: with an authenticated user and
`isAnonymous = true`, the stored record keeps the author id — it is not
null.  `author_id` is computed as `auth.user?.id || null`, which does
not consult the anonymity flag. -/
theorem createQuestion_anonymous_author_id_counterexample :
    (createQuestionData (some aliceUser) "Will AI replace radiologists?" "content"
        [] none true).author_id = some "user-1" ∧
    (createQuestionData (some aliceUser) "Will AI replace radiologists?" "content"
        [] none true).author_id ≠ none := by
  constructor
  · rfl
  · intro h
    simp [createQuestionData, jsStringOrNull, aliceUser] at h

/-- Claim C3, amended: for every `createQuestion` call with
`isAnonymous = true` and no authenticated user, the stored record has
`author_id` null and `asker_name` null; `asker_name` is null whenever
`isAnonymous = true`, whoever is signed in; and for every call with an
authenticated user (whose id is a nonempty string), the stored
`author_id` equals that user's id and `asker_name` is null — including
when `isAnonymous = true`. -/
theorem createQuestion_attribution (authUser : Option User) (title content : String)
    (tags : List String) (askerName : Option String) (isAnonymous : Bool) :
    (authUser = none → isAnonymous = true →
      (createQuestionData authUser title content tags askerName isAnonymous).author_id
          = none ∧
      (createQuestionData authUser title content tags askerName isAnonymous).asker_name
          = none) ∧
    (isAnonymous = true →
      (createQuestionData authUser title content tags askerName isAnonymous).asker_name
          = none) ∧
    (∀ u : User, authUser = some u → u.id ≠ "" →
      (createQuestionData authUser title content tags askerName isAnonymous).author_id
          = some u.id ∧
      (createQuestionData authUser title content tags askerName isAnonymous).asker_name
          = none) := by
  refine ⟨?_, ?_, ?_⟩
  · rintro rfl rfl
    simp [createQuestionData, jsStringOrNull]
  · rintro rfl
    simp [createQuestionData]
  · rintro u rfl hid
    simp [createQuestionData, jsStringOrNull, hid]

/-- Witness for the amended C3: a guest anonymous question stores no
author id and no asker name; an authenticated question stores the
author's id and no asker name. -/
theorem createQuestion_attribution_witness :
    ((createQuestionData none "t" "c" [] (some "Bob") true).author_id = none ∧
      (createQuestionData none "t" "c" [] (some "Bob") true).asker_name = none) ∧
    ((createQuestionData (some aliceUser) "t" "c" [] none false).author_id
        = some "user-1" ∧
      (createQuestionData (some aliceUser) "t" "c" [] none false).asker_name = none) := by
  constructor
  · exact (createQuestion_attribution none "t" "c" [] (some "Bob") true).1 rfl rfl
  · exact (createQuestion_attribution (some aliceUser) "t" "c" [] none false).2.2
      aliceUser rfl (by decide)

/-- Claim C2, evaluated at a failing input: when the remote
question-load rejects, the current `loadQuestions` resolves with
loading over, but the question list is the `safeSupabaseOperation`
fallback `[]` — not the offline-store join, which here is nonempty —
and neither a warning toast nor an error is raised.  The `[]` fallback
passes the `Array.isArray` guard of part_013 line 309, so the
offline-fallback-with-warning branch of lines 312-327 — the behaviour
the claim, the spec, and that dead branch itself describe — never
runs. -/
theorem loadQuestions_remote_failure_divergence :
    ((loadQuestions false (fun _ => Except.error "timeout") demoDB).loading = false) ∧
    ((loadQuestions false (fun _ => Except.error "timeout") demoDB).questions = []) ∧
    ((loadQuestions false (fun _ => Except.error "timeout") demoDB).toasts = []) ∧
    ((loadQuestions false (fun _ => Except.error "timeout") demoDB).error = none) ∧
    offlineJoin demoDB ≠ [] := by
  refine ⟨rfl, rfl, rfl, rfl, ?_⟩
  simp [offlineJoin, demoDB]

/-- Searching a list whose prefix has no match continues in the
suffix. -/
theorem find?_append_of_none {α : Type} (p : α → Bool) (l₁ l₂ : List α)
    (h : ∀ x ∈ l₁, p x = false) :
    (l₁ ++ l₂).find? p = l₂.find? p := by
  induction l₁ with
  | nil => simp
  | cons a as ih =>
      have ha : p a = false := h a (List.mem_cons_self a as)
      have has : ∀ x ∈ as, p x = false := fun x hx => h x (List.mem_cons_of_mem a hx)
      simp [List.find?, ha, ih has]

/-- Claim C5: in the offline vote path, starting from a question with
vote count 3 and a user with no prior vote on it, an up vote sets the
stored count to 4 and records exactly one new vote; a second up vote by
the same user with no intervening down vote leaves the store entirely
unchanged — an idempotent re-vote, not a toggle-off. -/
theorem voteOnQuestion_offline_idempotent_revote (db : OfflineDB)
    (uid qid : String) (q : Question) (id1 ts1 id2 ts2 : String)
    (hno : ∀ v ∈ db.votes, voteMatches uid qid v = false)
    (hq : q ∈ db.questions) (hid : q.id = qid) (hv : q.votes = 3) :
    ({ q with votes := 4 } ∈
        (voteOnQuestionOffline db uid qid VoteType.up id1 ts1).questions) ∧
    (voteOnQuestionOffline db uid qid VoteType.up id1 ts1).votes.length
        = db.votes.length + 1 ∧
    voteOnQuestionOffline (voteOnQuestionOffline db uid qid VoteType.up id1 ts1)
        uid qid VoteType.up id2 ts2
      = voteOnQuestionOffline db uid qid VoteType.up id1 ts1 := by
  have hfind : db.votes.find? (voteMatches uid qid) = none :=
    List.find?_eq_none.mpr (fun x hx => by simp [hno x hx])
  have hs1 : voteOnQuestionOffline db uid qid VoteType.up id1 ts1
      = applyVoteOffline db uid qid VoteType.up id1 ts1 := by
    simp [voteOnQuestionOffline, hfind]
  refine ⟨?_, ?_, ?_⟩
  · rw [hs1]
    have hmem := List.mem_map_of_mem
      (fun r : Question =>
        if r.id == qid then { r with votes := r.votes + 1 } else r) hq
    simpa [applyVoteOffline, OfflineDB.saveVote, hid, hv] using hmem
  · rw [hs1]
    simp [applyVoteOffline, OfflineDB.saveVote]
  · rw [hs1]
    have hvotes : (applyVoteOffline db uid qid VoteType.up id1 ts1).votes
        = db.votes ++ [mkVote id1 uid qid TargetType.question VoteType.up ts1] := by
      simp [applyVoteOffline, OfflineDB.saveVote]
    have hfind2 : (applyVoteOffline db uid qid VoteType.up id1 ts1).votes.find?
        (voteMatches uid qid)
        = some (mkVote id1 uid qid TargetType.question VoteType.up ts1) := by
      rw [hvotes, find?_append_of_none _ _ _ hno]
      simp [List.find?, voteMatches, mkVote]
    simp [voteOnQuestionOffline, hfind2, mkVote]

/-- Claim C6 (implicit): the duplicate check matches the user's first
stored vote on the target, not the most recent one.  After the vote
sequence up, down by one user (two records added, count back to its
starting value), a further up vote is a no-op: the store is entirely
unchanged, so the up state is unreachable again for that user. -/
theorem voteOnQuestion_offline_first_vote_wins (db : OfflineDB)
    (uid qid : String) (q : Question) (id1 ts1 id2 ts2 id3 ts3 : String)
    (hno : ∀ v ∈ db.votes, voteMatches uid qid v = false)
    (hq : q ∈ db.questions) (hid : q.id = qid) :
    ((voteOnQuestionOffline (voteOnQuestionOffline db uid qid VoteType.up id1 ts1)
        uid qid VoteType.down id2 ts2).votes.length = db.votes.length + 2) ∧
    (q ∈ (voteOnQuestionOffline (voteOnQuestionOffline db uid qid VoteType.up id1 ts1)
        uid qid VoteType.down id2 ts2).questions) ∧
    voteOnQuestionOffline
        (voteOnQuestionOffline (voteOnQuestionOffline db uid qid VoteType.up id1 ts1)
          uid qid VoteType.down id2 ts2) uid qid VoteType.up id3 ts3
      = voteOnQuestionOffline (voteOnQuestionOffline db uid qid VoteType.up id1 ts1)
          uid qid VoteType.down id2 ts2 := by
  have hfind : db.votes.find? (voteMatches uid qid) = none :=
    List.find?_eq_none.mpr (fun x hx => by simp [hno x hx])
  have hs1 : voteOnQuestionOffline db uid qid VoteType.up id1 ts1
      = applyVoteOffline db uid qid VoteType.up id1 ts1 := by
    simp [voteOnQuestionOffline, hfind]
  have hvotes1 : (applyVoteOffline db uid qid VoteType.up id1 ts1).votes
      = db.votes ++ [mkVote id1 uid qid TargetType.question VoteType.up ts1] := by
    simp [applyVoteOffline, OfflineDB.saveVote]
  have hfind1 : (applyVoteOffline db uid qid VoteType.up id1 ts1).votes.find?
      (voteMatches uid qid)
      = some (mkVote id1 uid qid TargetType.question VoteType.up ts1) := by
    rw [hvotes1, find?_append_of_none _ _ _ hno]
    simp [List.find?, voteMatches, mkVote]
  have hs2 : voteOnQuestionOffline (applyVoteOffline db uid qid VoteType.up id1 ts1)
      uid qid VoteType.down id2 ts2
      = applyVoteOffline (applyVoteOffline db uid qid VoteType.up id1 ts1)
          uid qid VoteType.down id2 ts2 := by
    simp [voteOnQuestionOffline, hfind1, mkVote]
  have hvotes2 : (applyVoteOffline (applyVoteOffline db uid qid VoteType.up id1 ts1)
      uid qid VoteType.down id2 ts2).votes
      = db.votes ++ [mkVote id1 uid qid TargetType.question VoteType.up ts1]
          ++ [mkVote id2 uid qid TargetType.question VoteType.down ts2] := by
    simp [applyVoteOffline, OfflineDB.saveVote, hvotes1]
  have hfind2 : (applyVoteOffline (applyVoteOffline db uid qid VoteType.up id1 ts1)
      uid qid VoteType.down id2 ts2).votes.find? (voteMatches uid qid)
      = some (mkVote id1 uid qid TargetType.question VoteType.up ts1) := by
    rw [hvotes2, List.append_assoc, find?_append_of_none _ _ _ hno]
    simp [List.find?, voteMatches, mkVote]
  rw [hs1, hs2]
  refine ⟨?_, ?_, ?_⟩
  · rw [hvotes2]
    simp
  · have helem :
        (fun r : Question => if r.id == qid then { r with votes := r.votes + (-1) } else r)
          ((fun r : Question => if r.id == qid then { r with votes := r.votes + 1 } else r) q)
          = q := by
      obtain ⟨i, t, c, a, v, ac, tg, ia, f, an, anon, ca, ua⟩ := q
      simp only [Question.mk.injEq] at hid ⊢
      subst hid
      simp
    have hmem := List.mem_map_of_mem
      (fun r : Question =>
        if r.id == qid then { r with votes := r.votes + 1 } else r) hq
    have hmem2 := List.mem_map_of_mem
      (fun r : Question =>
        if r.id == qid then { r with votes := r.votes + (-1) } else r) hmem
    rw [helem] at hmem2
    simpa [applyVoteOffline, OfflineDB.saveVote] using hmem2
  · simp [voteOnQuestionOffline, hfind2, mkVote]

/-- Witness for C5: on the concrete store with one question at three
votes and no vote records, one up vote reaches four and a second one
changes nothing. -/
theorem voteOnQuestion_offline_idempotent_revote_witness :
    ({ demoQuestion with votes := 4 } ∈
        (voteOnQuestionOffline demoDB "user-1" "q1" VoteType.up "v1" "t1").questions) ∧
    (voteOnQuestionOffline demoDB "user-1" "q1" VoteType.up "v1" "t1").votes.length
        = demoDB.votes.length + 1 ∧
    voteOnQuestionOffline (voteOnQuestionOffline demoDB "user-1" "q1" VoteType.up "v1" "t1")
        "user-1" "q1" VoteType.up "v2" "t2"
      = voteOnQuestionOffline demoDB "user-1" "q1" VoteType.up "v1" "t1" :=
  voteOnQuestion_offline_idempotent_revote demoDB "user-1" "q1" demoQuestion
    "v1" "t1" "v2" "t2" (by simp [demoDB]) (by simp [demoDB]) rfl rfl

/-- Witness for C6: on the concrete store, after up then down the vote
count is back at three with two vote records, and a further up vote
changes nothing. -/
theorem voteOnQuestion_offline_first_vote_wins_witness :
    ((voteOnQuestionOffline (voteOnQuestionOffline demoDB "user-1" "q1" VoteType.up "v1" "t1")
        "user-1" "q1" VoteType.down "v2" "t2").votes.length = demoDB.votes.length + 2) ∧
    (demoQuestion ∈
      (voteOnQuestionOffline (voteOnQuestionOffline demoDB "user-1" "q1" VoteType.up "v1" "t1")
        "user-1" "q1" VoteType.down "v2" "t2").questions) ∧
    voteOnQuestionOffline
        (voteOnQuestionOffline (voteOnQuestionOffline demoDB "user-1" "q1" VoteType.up "v1" "t1")
          "user-1" "q1" VoteType.down "v2" "t2") "user-1" "q1" VoteType.up "v3" "t3"
      = voteOnQuestionOffline (voteOnQuestionOffline demoDB "user-1" "q1" VoteType.up "v1" "t1")
          "user-1" "q1" VoteType.down "v2" "t2" :=
  voteOnQuestion_offline_first_vote_wins demoDB "user-1" "q1" demoQuestion
    "v1" "t1" "v2" "t2" "v3" "t3" (by simp [demoDB]) (by simp [demoDB]) rfl

/-- Claim C7: the answer-count trigger, in the same transition as the
row insert, raises the parent question's `answer_count` by exactly one
and stamps `updated_at`, and raises the answer's author's
`answers_count` by exactly one; a delete lowers both by exactly one;
every other question row and profile row is returned unchanged. -/
theorem update_answer_count_trigger (db : SqlDB) (a : AnswerRow) (now : Nat) (i : Nat) :
    ((insertAnswer a now db).answers = db.answers ++ [a]) ∧
    (∀ q, db.questions[i]? = some q →
      (q.id = a.question_id →
        (insertAnswer a now db).questions[i]?
          = some { q with answer_count := q.answer_count + 1, updated_at := now }) ∧
      (q.id ≠ a.question_id → (insertAnswer a now db).questions[i]? = some q)) ∧
    (∀ p, db.profiles[i]? = some p →
      (a.author_id = some p.id →
        (insertAnswer a now db).profiles[i]?
          = some { p with answers_count := p.answers_count + 1 }) ∧
      (a.author_id ≠ some p.id → (insertAnswer a now db).profiles[i]? = some p)) ∧
    (∀ q, db.questions[i]? = some q →
      (q.id = a.question_id →
        (deleteAnswer a now db).questions[i]?
          = some { q with answer_count := q.answer_count - 1, updated_at := now }) ∧
      (q.id ≠ a.question_id → (deleteAnswer a now db).questions[i]? = some q)) ∧
    (∀ p, db.profiles[i]? = some p →
      (a.author_id = some p.id →
        (deleteAnswer a now db).profiles[i]?
          = some { p with answers_count := p.answers_count - 1 }) ∧
      (a.author_id ≠ some p.id → (deleteAnswer a now db).profiles[i]? = some p)) := by
  refine ⟨?_, ?_, ?_, ?_, ?_⟩
  · simp [insertAnswer, update_answer_count_insert]
  · intro q hq
    constructor
    · intro hqid
      simp [insertAnswer, update_answer_count_insert, List.getElem?_map, hq, hqid]
    · intro hqid
      simp [insertAnswer, update_answer_count_insert, List.getElem?_map, hq, hqid]
  · intro p hp
    constructor
    · intro hpid
      simp [insertAnswer, update_answer_count_insert, List.getElem?_map, hp, ← hpid]
    · intro hpid
      simp [insertAnswer, update_answer_count_insert, List.getElem?_map, hp]
      intro hcontra
      exact absurd hcontra.symm hpid
  · intro q hq
    constructor
    · intro hqid
      simp [deleteAnswer, update_answer_count_delete, List.getElem?_map, hq, hqid]
    · intro hqid
      simp [deleteAnswer, update_answer_count_delete, List.getElem?_map, hq, hqid]
  · intro p hp
    constructor
    · intro hpid
      simp [deleteAnswer, update_answer_count_delete, List.getElem?_map, hp, ← hpid]
    · intro hpid
      simp [deleteAnswer, update_answer_count_delete, List.getElem?_map, hp]
      intro hcontra
      exact absurd hcontra.symm hpid

/-- Witness for C7: inserting the concrete answer to question q2 by
profile user-2 bumps that question row to six answers and that profile
row to one answer, and leaves the first question row untouched. -/
theorem update_answer_count_trigger_witness :
    (insertAnswer demoAnswerRow2 5 demoSqlDB).questions[1]?
      = some { demoQuestionRow2 with
          answer_count := demoQuestionRow2.answer_count + 1, updated_at := 5 } ∧
    (insertAnswer demoAnswerRow2 5 demoSqlDB).profiles[1]?
      = some { demoProfileRow2 with
          answers_count := demoProfileRow2.answers_count + 1 } ∧
    (insertAnswer demoAnswerRow2 5 demoSqlDB).questions[0]? = some demoQuestionRow := by
  refine ⟨?_, ?_, ?_⟩
  · exact ((update_answer_count_trigger demoSqlDB demoAnswerRow2 5 1).2.1
      demoQuestionRow2 rfl).1 rfl
  · exact ((update_answer_count_trigger demoSqlDB demoAnswerRow2 5 1).2.2.1
      demoProfileRow2 rfl).1 rfl
  · exact ((update_answer_count_trigger demoSqlDB demoAnswerRow2 5 0).2.1
      demoQuestionRow rfl).2 (by decide)

/-- Once a question row is flagged answered, the acceptance trigger of
an arbitrary answer update never clears the flag. -/
theorem is_answered_mono_updateAnswer (db : SqlDB) (old new : AnswerRow) (i : Nat)
    (q q' : QuestionRow) (hq : db.questions[i]? = some q)
    (hq' : (updateAnswer old new db).questions[i]? = some q')
    (h : q.is_answered = true) : q'.is_answered = true := by
  unfold updateAnswer update_accepted_answer_count at hq'
  split at hq'
  · simp [List.getElem?_map, hq] at hq'
    split at hq' <;> rw [← hq'] <;> simp [h]
  · split at hq' <;>
      (simp [hq] at hq'
       rw [← hq']
       exact h)

/-- The answer-count trigger on an insert never touches `is_answered`. -/
theorem is_answered_mono_insertAnswer (db : SqlDB) (a : AnswerRow) (now : Nat) (i : Nat)
    (q q' : QuestionRow) (hq : db.questions[i]? = some q)
    (hq' : (insertAnswer a now db).questions[i]? = some q')
    (h : q.is_answered = true) : q'.is_answered = true := by
  unfold insertAnswer update_answer_count_insert at hq'
  simp [List.getElem?_map, hq] at hq'
  split at hq' <;> rw [← hq'] <;> simp [h]

/-- The answer-count trigger on a delete never touches `is_answered`. -/
theorem is_answered_mono_deleteAnswer (db : SqlDB) (a : AnswerRow) (now : Nat) (i : Nat)
    (q q' : QuestionRow) (hq : db.questions[i]? = some q)
    (hq' : (deleteAnswer a now db).questions[i]? = some q')
    (h : q.is_answered = true) : q'.is_answered = true := by
  unfold deleteAnswer update_answer_count_delete at hq'
  simp [List.getElem?_map, hq] at hq'
  split at hq' <;> rw [← hq'] <;> simp [h]

/-- Claim C8 (implicit): when an answer's `is_accepted` flag goes from
true to false, the acceptance trigger lowers the author's
`accepted_answers_count` by one and returns every question row exactly
as it was — in particular `is_answered` is untouched; and none of the
answer-table triggers (insert, delete, or any update) ever turns a
question's `is_answered` from true back to false, so a question once
marked answered stays marked answered. -/
theorem update_accepted_answer_count_unaccept (db : SqlDB) (old new : AnswerRow) (i : Nat)
    (hold : old.is_accepted = true) (hnew : new.is_accepted = false) :
    ((updateAnswer old new db).questions = db.questions) ∧
    (∀ p, db.profiles[i]? = some p →
      (new.author_id = some p.id →
        (updateAnswer old new db).profiles[i]?
          = some { p with accepted_answers_count := p.accepted_answers_count - 1 }) ∧
      (new.author_id ≠ some p.id → (updateAnswer old new db).profiles[i]? = some p)) ∧
    (∀ old2 new2 q q', db.questions[i]? = some q →
      (updateAnswer old2 new2 db).questions[i]? = some q' →
      q.is_answered = true → q'.is_answered = true) ∧
    (∀ a now q q', db.questions[i]? = some q →
      (insertAnswer a now db).questions[i]? = some q' →
      q.is_answered = true → q'.is_answered = true) ∧
    (∀ a now q q', db.questions[i]? = some q →
      (deleteAnswer a now db).questions[i]? = some q' →
      q.is_answered = true → q'.is_answered = true) := by
  refine ⟨?_, ?_, ?_, ?_, ?_⟩
  · simp [updateAnswer, update_accepted_answer_count, hold, hnew]
  · intro p hp
    constructor
    · intro hpid
      simp [updateAnswer, update_accepted_answer_count, hold, hnew,
        List.getElem?_map, hp, ← hpid]
    · intro hpid
      simp [updateAnswer, update_accepted_answer_count, hold, hnew,
        List.getElem?_map, hp]
      intro hcontra
      exact absurd hcontra.symm hpid
  · intro old2 new2 q q' hq hq' h
    exact is_answered_mono_updateAnswer db old2 new2 i q q' hq hq' h
  · intro a now q q' hq hq' h
    exact is_answered_mono_insertAnswer db a now i q q' hq hq' h
  · intro a now q q' hq hq' h
    exact is_answered_mono_deleteAnswer db a now i q q' hq hq' h

/-- Witness for C8: unaccepting the concrete accepted answer drops the
author's accepted count to zero and leaves the already-answered
question row answered. -/
theorem update_accepted_answer_count_unaccept_witness :
    (updateAnswer demoAnswerRow { demoAnswerRow with is_accepted := false }
        demoSqlDB).questions = demoSqlDB.questions ∧
    (updateAnswer demoAnswerRow { demoAnswerRow with is_accepted := false }
        demoSqlDB).profiles[0]?
      = some { demoProfileRow with
          accepted_answers_count := demoProfileRow.accepted_answers_count - 1 } := by
  constructor
  · exact (update_accepted_answer_count_unaccept demoSqlDB demoAnswerRow
      { demoAnswerRow with is_accepted := false } 0 rfl rfl).1
  · exact ((update_accepted_answer_count_unaccept demoSqlDB demoAnswerRow
      { demoAnswerRow with is_accepted := false } 0 rfl rfl).2.1
      demoProfileRow rfl).1 rfl

/-- Claim C9: `signOut` always succeeds: whatever the starting state,
the mode, and the outcome of the remote sign-out call (including
rejection), it resolves with no error, the in-memory auth state ends
as user none, loading false, error none, and the locally cached
signed-in user (the `ama_cached_user` key kept in sync by the cache
effect) is cleared; in offline mode the `offline_current_user` key is
cleared as well. -/
theorem signOut_always_succeeds (offline : Bool)
    (remoteSignOut : Nat → Except String Unit) (s : AuthEnv) :
    ((signOut offline remoteSignOut s).2 = none) ∧
    ((signOut offline remoteSignOut s).1.authState
      = { user := none, loading := false, error := none }) ∧
    ((signOut offline remoteSignOut s).1.amaCachedUser = none) ∧
    (offline = true → (signOut offline remoteSignOut s).1.offlineCurrentUser = none) := by
  unfold signOut cacheUserEffect safeSupabaseOperation
  cases offline
  · cases h : remoteSignOut 0 <;> simp [h]
  · simp

/-- Witness for C9: a signed-in offline user signs out into the empty
state, with both caches cleared, even though the remote call would
reject. -/
theorem signOut_always_succeeds_witness :
    ((signOut true (fun _ => Except.error "network down") demoAuthEnv).2 = none) ∧
    ((signOut true (fun _ => Except.error "network down") demoAuthEnv).1.authState
      = { user := none, loading := false, error := none }) ∧
    ((signOut true (fun _ => Except.error "network down") demoAuthEnv).1.amaCachedUser
      = none) ∧
    ((signOut true (fun _ => Except.error "network down") demoAuthEnv).1.offlineCurrentUser
      = none) := by
  have h := signOut_always_succeeds true (fun _ => Except.error "network down") demoAuthEnv
  exact ⟨h.1, h.2.1, h.2.2.1, h.2.2.2 rfl⟩

/-- Claim C10: in offline mode, `signIn` ignores the password: two runs
with the same stored users and email but any two passwords are equal
as state transformers; a run succeeds with the first stored user whose
email matches — that user becomes the authenticated and cached current
user — and yields the "Invalid credentials" error exactly when no
stored user carries that email. -/
theorem signIn_offline_password_independent (db : OfflineDB)
    (email p1 p2 : String) (s : AuthEnv) :
    (signInOffline db email p1 s = signInOffline db email p2 s) ∧
    (∀ u, db.users.find? (fun x => x.email == email) = some u →
      (signInOffline db email p1 s).1.authState.user = some u ∧
      (signInOffline db email p1 s).1.offlineCurrentUser = some u ∧
      (signInOffline db email p1 s).2 = none) ∧
    ((∀ u ∈ db.users, u.email ≠ email) →
      (signInOffline db email p1 s).2 = some "Invalid credentials" ∧
      (signInOffline db email p1 s).1.authState.error = some "Invalid credentials" ∧
      (signInOffline db email p1 s).1.authState.user = s.authState.user) := by
  refine ⟨rfl, ?_, ?_⟩
  · intro u hu
    simp [signInOffline, hu]
  · intro hno
    have hfind : db.users.find? (fun x => x.email == email) = none :=
      List.find?_eq_none.mpr (fun x hx => by simp [hno x hx])
    simp [signInOffline, hfind]

/-- Witness for C10: on the concrete store, signing in with the stored
email and two unrelated passwords gives identical outcomes, landing on
the stored user; an unknown email yields the invalid-credentials
error. -/
theorem signIn_offline_password_independent_witness :
    (signInOffline demoDB "alice@example.com" "pw-one" demoAuthEnv
      = signInOffline demoDB "alice@example.com" "pw-two" demoAuthEnv) ∧
    ((signInOffline demoDB "alice@example.com" "pw-one" demoAuthEnv).1.authState.user
      = some aliceUser) ∧
    ((signInOffline demoDB "unknown@example.com" "pw-one" demoAuthEnv).2
      = some "Invalid credentials") := by
  refine ⟨(signIn_offline_password_independent demoDB "alice@example.com"
      "pw-one" "pw-two" demoAuthEnv).1, ?_, ?_⟩
  · exact ((signIn_offline_password_independent demoDB "alice@example.com"
      "pw-one" "pw-two" demoAuthEnv).2.1 aliceUser (by decide)).1
  · exact ((signIn_offline_password_independent demoDB "unknown@example.com"
      "pw-one" "pw-two" demoAuthEnv).2.2 (by decide)).1

end AMA
